import Mathlib

/-!
Shallow embedding of src/bdd_converter.py: the Builder class that converts a
Robot Framework suite tree into feature-style text files, together with the
small external helpers the converter calls.  Machine strings are Lean
String, Python lists are Lean List, Python None is modelled with Option.
The two external library functions whose behaviour the converter merely
forwards (the duration parser pair timestr_to_secs / secs_to_timestr and the
relative-path helper get_link_path) are taken as parameters of the
definitions that use them.
-/

namespace BddConverter

/-- A plain keyword call node (a robot.model Keyword): keyword name, argument
strings and assigned-variable strings.  Setup and teardown nodes have this
shape. -/
structure PlainKw where
  name : String
  args : List String
  assign : List String
deriving DecidableEq

/-- The type tag a keyword call node carries (kw.type in the source):
SETUP, TEARDOWN or KEYWORD. -/
inductive KwSubtype where
  | setup
  | teardown
  | keyword
deriving DecidableEq

/-- One branch of an IF/ELSE root node: its own type tag (IF, ELSE IF, ELSE)
and an optional condition string (None for an ELSE branch). -/
structure IfBranch where
  type : String
  condition : Option String
deriving DecidableEq

/-- One branch of a TRY/EXCEPT root node: its own type tag (TRY, EXCEPT,
ELSE, FINALLY), the exception patterns, and the optional AS variable
(branch.variable in the source; None when absent). -/
structure TryBranch where
  type : String
  patterns : List String
  varName : Option String
deriving DecidableEq

/-- A polymorphic body node of a test: a plain keyword call (carrying its
SETUP/TEARDOWN/KEYWORD type tag), a FOR loop, a WHILE loop, an IF/ELSE root
or a TRY/EXCEPT root. -/
inductive KeywordNode where
  | kwCall (st : KwSubtype) (k : PlainKw)
  | forLoop (vars : List String) (flavor : String) (values : List String)
  | whileLoop (condition : String)
  | ifRoot (branches : List IfBranch)
  | tryRoot (branches : List TryBranch)
deriving DecidableEq

/-- A test node of the input tree (robot.running TestCase as the converter
reads it): name, longname, id, doc, tag strings, optional timeout string,
ordered body, optional setup and teardown keyword calls. -/
structure TestNode where
  name : String
  longname : String
  id : String
  doc : String
  tags : List String
  timeout : Option String
  body : List KeywordNode
  setup : Option PlainKw
  teardown : Option PlainKw
deriving DecidableEq

/-- A suite node of the input tree: source path (empty when absent), id,
name, longname, doc, test count, child suites, direct tests and optional
setup/teardown. -/
inductive SuiteNode where
  | mk (source : String) (id : String) (name : String) (longname : String)
      (doc : String) (testCount : Nat) (suites : List SuiteNode)
      (tests : List TestNode) (setup : Option PlainKw) (teardown : Option PlainKw)

def SuiteNode.source : SuiteNode → String
  | .mk s _ _ _ _ _ _ _ _ _ => s

def SuiteNode.id : SuiteNode → String
  | .mk _ i _ _ _ _ _ _ _ _ => i

def SuiteNode.name : SuiteNode → String
  | .mk _ _ n _ _ _ _ _ _ _ => n

def SuiteNode.longname : SuiteNode → String
  | .mk _ _ _ l _ _ _ _ _ _ => l

def SuiteNode.suites : SuiteNode → List SuiteNode
  | .mk _ _ _ _ _ _ ss _ _ _ => ss

def SuiteNode.tests : SuiteNode → List TestNode
  | .mk _ _ _ _ _ _ _ ts _ _ => ts

/-- The uniform record every keyword or control node collapses to. -/
structure LineRecord where
  type : String
  name : String
  arguments : String
deriving DecidableEq

/-- The record _build_test produces for one test. -/
structure TestRecord where
  name : String
  fullName : String
  id : String
  doc : String
  tags : List String
  timeout : String
  keywords : List LineRecord
deriving DecidableEq

/-! ### Small string helpers (Python string operations used by the source) -/

/-- Python truthiness of an optional string: None and the empty string are
falsy. -/
def pyTruthyS : Option String → Bool
  | none => false
  | some s => !(s == "")

/-- The whitespace characters Python str.strip removes (ASCII range). -/
def isPySpace (c : Char) : Bool :=
  c == ' ' || c == '\t' || c == '\n' || c == '\r' || c == '\x0b' || c == '\x0c'

/-- Python str.strip(): remove leading and trailing whitespace. -/
def pyStrip (s : String) : String :=
  ⟨((s.data.reverse.dropWhile isPySpace).reverse).dropWhile isPySpace⟩

/-- Python str.rstrip applied with the character set of an equals sign and a
space, as used on assigned variable names. -/
def rstripAssign (s : String) : String :=
  ⟨(s.data.reverse.dropWhile (fun c => c == '=' || c == ' ')).reverse⟩

/-- Python str.lower (ASCII case mapping). -/
def pyLower (s : String) : String :=
  ⟨s.data.map Char.toLower⟩

/-- Whether the pattern list is an initial segment of the other list. -/
def charsHavePre : List Char → List Char → Bool
  | [], _ => true
  | _ :: _, [] => false
  | p :: ps, c :: cs => p == c && charsHavePre ps cs

/-- Whether the pattern list occurs contiguously inside the other list. -/
def charsOccur : List Char → List Char → Bool
  | pat, [] => charsHavePre pat []
  | pat, c :: cs => charsHavePre pat (c :: cs) || charsOccur pat cs

/-- Python substring membership: pat in s. -/
def strContains (s pat : String) : Bool :=
  charsOccur pat.data s.data

/-- Python str.replace applied with the one-character pattern of a space and
the replacement underscore, as used on the suite name for the file name; for
a one-character pattern the replacement is a per-character map. -/
def replaceSpaces (s : String) : String :=
  ⟨s.data.map fun c => if c == ' ' then '_' else c⟩

/-- External helper robot.utils.seq2str2, modelled from its library source:
an empty sequence renders as a bracket pair, otherwise the items are joined
with pipes inside brackets. -/
def seq2str2 (values : List String) : String :=
  if values.isEmpty then "[ ]"
  else "[ " ++ String.intercalate " | " values ++ " ]"

/-- os.path.dirname for POSIX paths, modelled from the stdlib: the part of
the path before the final slash, with trailing slashes removed unless the
result consists only of slashes. -/
def dirname (p : String) : String :=
  let head := (p.data.reverse.dropWhile (fun c => !(c == '/'))).reverse
  if head.isEmpty then ""
  else if head.all (fun c => c == '/') then ⟨head⟩
  else ⟨(head.reverse.dropWhile (fun c => c == '/')).reverse⟩

/-! ### The Builder methods (direct translations from src/bdd_converter.py) -/

/-- Builder._get_relative_source.  The external get_link_path is the
parameter lp; the output path held by the Builder is the parameter out,
with the empty string standing for an unset (falsy) output path. -/
def get_relative_source (lp : String → String → String) (out : String)
    (source : String) : String :=
  if source == "" || out == "" then ""
  else lp source (dirname out)

/-- Builder._get_timeout.  The parameter pr is the external composition
secs_to_timestr after timestr_to_secs, returning none when the parse raises
ValueError (the only exception the library raises for a string input); the
source catches exactly that and falls back to the original string. -/
def get_timeout (pr : String → Option String) : Option String → String
  | none => ""
  | some t =>
    match pr t with
    | some rendered => rendered
    | none => t

/-- Builder._get_kw_name: with assigned variables the display name is the
variables (each right-stripped of equals signs and spaces) joined with a
comma, an equals sign, and the keyword name; otherwise the keyword name. -/
def get_kw_name (k : PlainKw) : String :=
  if !k.assign.isEmpty then
    String.intercalate ", " (k.assign.map rstripAssign) ++ " = " ++ k.name
  else k.name

/-- Builder._build_data_row: the row joined with pipes, preceded by a tab
and an opening pipe and followed by a closing pipe. -/
def build_data_row (rowData : List String) : String :=
  "\t| " ++ String.intercalate " | " rowData ++ " |"

/-- Builder._build_keyword: the data-table markers get an empty name and the
pipe-rendered row as arguments; every other keyword keeps its display name
and comma-joined arguments. -/
def build_keyword (k : PlainKw) (kwType : String) : LineRecord :=
  if get_kw_name k == "^" || get_kw_name k == ">" then
    { type := kwType, name := "", arguments := build_data_row k.args }
  else
    { type := kwType, name := get_kw_name k, arguments := String.intercalate ", " k.args }

/-- Builder._build_for. -/
def build_for (vars : List String) (flavor : String)
    (values : List String) : LineRecord :=
  { type := "FOR",
    name := String.intercalate ", " vars ++ " " ++ flavor ++ " " ++ seq2str2 values,
    arguments := "" }

/-- Builder._build_while. -/
def build_while (condition : String) : LineRecord :=
  { type := "WHILE", name := condition, arguments := "" }

/-- Builder._build_if: one record per branch, the name being the branch
condition with None defaulted to the empty string. -/
def build_if (branches : List IfBranch) : List LineRecord :=
  branches.map fun b =>
    { type := b.type, name := b.condition.getD "", arguments := "" }

/-- Builder._build_try: one record per branch; an EXCEPT branch renders its
patterns joined with a comma, a space, the AS clause when the variable is
truthy, stripped of surrounding whitespace; other branches get an empty
name. -/
def build_try (branches : List TryBranch) : List LineRecord :=
  branches.map fun b =>
    if b.type == "EXCEPT" then
      { type := b.type,
        name := pyStrip (String.intercalate ", " b.patterns ++ " " ++
          (if pyTruthyS b.varName then "AS " ++ b.varName.getD "" else "")),
        arguments := "" }
    else
      { type := b.type, name := "", arguments := "" }

/-- Builder._build_keywords, restricted to the truthy nodes that reach it
from a test body (every body node is truthy; the falsiness guard of the
source only ever skips an unset suite setup or teardown, which is modelled
at the Option layer in build_suite_keywords below). -/
def build_keywords : List KeywordNode → List LineRecord
  | [] => []
  | kw :: rest =>
    (match kw with
      | .kwCall .setup k => [build_keyword k "SETUP"]
      | .kwCall .teardown k => [build_keyword k "TEARDOWN"]
      | .kwCall .keyword k => [build_keyword k "KEYWORD"]
      | .forLoop vs flavor vals => [build_for vs flavor vals]
      | .whileLoop c => [build_while c]
      | .ifRoot bs => build_if bs
      | .tryRoot bs => build_try bs) ++ build_keywords rest

/-- The suite-level call of _build_keywords on the pair of the suite setup
and teardown: an unset (falsy) member of the pair is skipped by the guard
in the source loop. -/
def build_suite_keywords (st td : Option PlainKw) : List LineRecord :=
  build_keywords
    ((match st with
       | some k => [KeywordNode.kwCall .setup k]
       | none => []) ++
     (match td with
       | some k => [KeywordNode.kwCall .teardown k]
       | none => []))

/-- Builder._build_test.  The source mutates the shared test node, inserting
the setup at position zero of the body and appending the teardown; the
mutation is made explicit here by returning the updated test node next to
the produced record.  The parameter pr is the external duration formatter
used by _get_timeout. -/
def build_test (pr : String → Option String) (test : TestNode) :
    TestRecord × TestNode :=
  let body1 :=
    match test.setup with
    | some k => KeywordNode.kwCall .setup k :: test.body
    | none => test.body
  let body2 :=
    match test.teardown with
    | some k => body1 ++ [KeywordNode.kwCall .teardown k]
    | none => body1
  let testName :=
    if strContains (pyLower test.name) "scenario" then test.name
    else "Scenario: " ++ test.name
  ({ name := testName,
     fullName := test.longname,
     id := test.id,
     doc := test.doc,
     tags := test.tags,
     timeout := get_timeout pr test.timeout,
     keywords := build_keywords body2 },
   { test with body := body2 })

/-! ### The emitter (_write_tests) and the traversal (_build_suite)

The tag line of the source concatenates the Python string letter t with the
tag LIST of the test record.  Concatenating a string with a list is a
dynamic type error in Python, so the string addition of the write loop is
modelled on a small dynamic value type whose addition is defined exactly
where Python defines it. -/

/-- A Python value as it appears in the write loop: a string or a list of
strings. -/
inductive PyVal where
  | pstr (s : String)
  | plist (xs : List String)
deriving DecidableEq

/-- Python addition on such values: string plus string concatenates, list
plus list concatenates, and a mixed addition raises TypeError (none). -/
def pyAdd : PyVal → PyVal → Option PyVal
  | .pstr a, .pstr b => some (.pstr (a ++ b))
  | .plist a, .plist b => some (.plist (a ++ b))
  | _, _ => none

/-- The text the write loop of _write_tests tries to write for one test:
the tag line (the letter t added to the tag list), then a tab and the test
name, then two tabs, name and arguments per keyword record, then a blank
line.  Returns none when the Python addition of the tag line raises
TypeError, in which case nothing of this test reaches the file. -/
def emit_test (r : TestRecord) : Option String :=
  match pyAdd (.pstr "t") (.plist r.tags) with
  | none => none
  | some (.plist _) => none
  | some (.pstr tagLine) =>
    some (tagLine ++ "\t" ++ r.name ++ "\n" ++
      String.join (r.keywords.map fun k => "\t\t" ++ k.name ++ k.arguments ++ "\n") ++
      "\n")

/-- The write loop over the test records: the bytes written before the
first failing write, and whether a TypeError was raised. -/
def emit_tests : List TestRecord → String × Bool
  | [] => ("", false)
  | r :: rs =>
    match emit_test r with
    | none => ("", true)
    | some s =>
      let rest := emit_tests rs
      (s ++ rest.1, rest.2)

/-- What one call of Builder._write_tests does: the file it creates (name
and the bytes flushed into it when the scoped writer closes), whether the
call raised, and the test nodes after the mutation done by _build_test. -/
structure WriteOut where
  file : Option (String × String)
  crashed : Bool
  tests : List TestNode
deriving DecidableEq

/-- Builder._write_tests: nothing happens for a suite without direct tests;
otherwise every direct test is built (mutating it), a file named after the
suite is created, the Feature header and then the per-test lines are
written until the tag line of the first test raises. -/
def write_tests (pr : String → Option String) (suiteName : String)
    (tests : List TestNode) : WriteOut :=
  if tests.isEmpty then ⟨none, false, tests⟩
  else
    let built := tests.map (build_test pr)
    let body := emit_tests (built.map Prod.fst)
    ⟨some (replaceSpaces suiteName ++ ".feature",
        "Feature: " ++ suiteName ++ "\n\n\n" ++ body.1),
      body.2,
      built.map Prod.snd⟩

/-- The observable effects of running Builder._build_suite on a tree: the
files created in creation order, whether the run aborted with a TypeError,
and the tree as left behind (its test bodies mutated up to the abort
point). -/
structure RunOut where
  files : List (String × String)
  crashed : Bool
  suite : SuiteNode

structure RunsOut where
  files : List (String × String)
  crashed : Bool
  suites : List SuiteNode

mutual

/-- The effect view of Builder._build_suite: the dict fields are evaluated
in order, so the child suites (and their files) are processed before the
own _write_tests call; an exception from a child propagates and the own
tests are then never built or written. -/
def run_suite (pr : String → Option String) : SuiteNode → RunOut
  | .mk src i n ln d tc suites tests st td =>
    let c := run_suites pr suites
    if c.crashed then
      ⟨c.files, true, .mk src i n ln d tc c.suites tests st td⟩
    else
      let w := write_tests pr n tests
      ⟨c.files ++ (match w.file with | some f => [f] | none => []),
        w.crashed,
        .mk src i n ln d tc c.suites w.tests st td⟩

/-- Builder._build_suites, effect view: children in order, stopping at the
first child whose processing raises. -/
def run_suites (pr : String → Option String) : List SuiteNode → RunsOut
  | [] => ⟨[], false, []⟩
  | s :: ss =>
    let r := run_suite pr s
    if r.crashed then
      ⟨r.files, true, r.suite :: ss⟩
    else
      let rs := run_suites pr ss
      ⟨r.files ++ rs.files, rs.crashed, r.suite :: rs.suites⟩

end

/-- The descriptive record Builder._build_suite returns when it completes.
The tests field holds the return value of _write_tests, which has no
return statement and therefore always yields None. -/
inductive SuiteRecord where
  | mk (source : String) (relativeSource : String) (id : String)
      (name : String) (fullName : String) (doc : String)
      (numberOfTests : Nat) (suites : List SuiteRecord)
      (tests : Option Unit) (keywords : List LineRecord)

def SuiteRecord.relativeSource : SuiteRecord → String
  | .mk _ r _ _ _ _ _ _ _ _ => r

def SuiteRecord.name : SuiteRecord → String
  | .mk _ _ _ n _ _ _ _ _ _ => n

mutual

/-- The value view of Builder._build_suite: the record it returns when no
exception interrupts it.  The external get_link_path is the parameter lp
and the Builder output path is out. -/
def build_suite (lp : String → String → String) (out : String) :
    SuiteNode → SuiteRecord
  | .mk src i n ln d tc suites _tests st td =>
    SuiteRecord.mk src (get_relative_source lp out src) i n ln d tc
      (build_suites lp out suites) none (build_suite_keywords st td)

def build_suites (lp : String → String → String) (out : String) :
    List SuiteNode → List SuiteRecord
  | [] => []
  | s :: ss => build_suite lp out s :: build_suites lp out ss

end

/-! ### Field scrubbing, for the noninterference statement -/

/-- Reset the four test fields that are computed into the TestRecord but
never written to the feature file. -/
def scrubTest (t : TestNode) : TestNode :=
  { t with timeout := none, doc := "", id := "", longname := "" }

mutual

/-- Scrub every test of a tree, keeping everything else. -/
def scrubSuite : SuiteNode → SuiteNode
  | .mk src i n ln d tc suites tests st td =>
    .mk src i n ln d tc (scrubSuites suites) (tests.map scrubTest) st td

def scrubSuites : List SuiteNode → List SuiteNode
  | [] => []
  | s :: ss => scrubSuite s :: scrubSuites ss

end

/-! ### Claim-side counting and concrete example inputs -/

/-- The number of line records the specification assigns to one body node:
exactly one for a keyword call, a FOR or a WHILE, and one per branch for an
IF or TRY root. -/
def lineCount : KeywordNode → Nat
  | .kwCall _ _ => 1
  | .forLoop _ _ _ => 1
  | .whileLoop _ => 1
  | .ifRoot bs => bs.length
  | .tryRoot bs => bs.length

/-- A duration formatter that always fails to parse; the emitted bytes do
not depend on the choice. -/
def exPr : String → Option String := fun _ => none

/-- A concrete relative-path helper for evaluating the path claims. -/
def exLp : String → String → String := fun a b => a ++ "|" ++ b

def exKw : KeywordNode := .kwCall .keyword ⟨"Open Browser", ["chrome"], []⟩

def exSetup : PlainKw := ⟨"Login", ["user"], []⟩

/-- A test with a setup and one body keyword. -/
def exTest : TestNode :=
  { name := "T", longname := "S.T", id := "s1-t1", doc := "", tags := [],
    timeout := some "1x", body := [exKw], setup := some exSetup, teardown := none }

/-- A suite owning the one test above. -/
def exSuite : SuiteNode := .mk "" "s1" "S" "S" "" 1 [] [exTest] none none

/-- The concrete scenario of the specification: suite Login Suite with one
test Successful login, tag smoke, one keyword Open Browser with argument
chrome. -/
def exLoginTest : TestNode :=
  { name := "Successful login", longname := "Login Suite.Successful login",
    id := "s1-t1", doc := "", tags := ["smoke"], timeout := none,
    body := [exKw], setup := none, teardown := none }

def exLoginSuite : SuiteNode :=
  .mk "" "s1" "Login Suite" "Login Suite" "" 1 [] [exLoginTest] none none

def exTestA : TestNode :=
  { name := "TA", longname := "Root.Alpha.TA", id := "s1-s1-t1", doc := "",
    tags := [], timeout := none, body := [exKw], setup := none, teardown := none }

def exTestB : TestNode :=
  { name := "TB", longname := "Root.Beta.TB", id := "s1-s2-t1", doc := "",
    tags := [], timeout := none, body := [exKw], setup := none, teardown := none }

def exSuiteA : SuiteNode := .mk "" "s1-s1" "Alpha" "Root.Alpha" "" 1 [] [exTestA] none none

def exSuiteB : SuiteNode := .mk "" "s1-s2" "Beta" "Root.Beta" "" 1 [] [exTestB] none none

/-- A root suite with no direct tests and two children that each own one. -/
def exRoot : SuiteNode :=
  .mk "" "s1" "Root" "Root" "" 2 [exSuiteA, exSuiteB] [] none none

/-- A test whose name already mentions scenario in its middle. -/
def exScenTest : TestNode :=
  { name := "My SCENARIO test", longname := "X.My SCENARIO test", id := "s1-t1",
    doc := "", tags := [], timeout := none, body := [], setup := none, teardown := none }

/-- A suite with a nonempty source path, for the relative-source claim. -/
def exSrcSuite : SuiteNode := .mk "/data/s.robot" "s1" "X" "X" "" 0 [] [] none none

/-- Two tests equal except in timeout, doc, id and longname. -/
def exFieldTest1 : TestNode :=
  { name := "T", longname := "A.T", id := "s1-t1", doc := "first doc",
    tags := ["x"], timeout := some "5s", body := [exKw], setup := none, teardown := none }

def exFieldTest2 : TestNode :=
  { name := "T", longname := "B.T", id := "s9-t9", doc := "other doc",
    tags := ["x"], timeout := none, body := [exKw], setup := none, teardown := none }

def exFieldSuite1 : SuiteNode := .mk "" "s1" "D" "D" "" 1 [] [exFieldTest1] none none

def exFieldSuite2 : SuiteNode := .mk "" "s1" "D" "D" "" 1 [] [exFieldTest2] none none

/-! ### Helper lemmas -/

theorem charsHavePre_iff (p s : List Char) :
    charsHavePre p s = true ↔ ∃ r, s = p ++ r := by
  induction p generalizing s with
  | nil => simp [charsHavePre]
  | cons a ps ih =>
    cases s with
    | nil =>
      simp [charsHavePre]
    | cons b bs =>
      simp only [charsHavePre, Bool.and_eq_true, beq_iff_eq, ih, List.cons_append,
        List.cons.injEq]
      constructor
      · rintro ⟨hab, r, hr⟩
        exact ⟨r, hab.symm, hr⟩
      · rintro ⟨r, hba, hr⟩
        exact ⟨hba.symm, r, hr⟩

theorem charsOccur_iff (p s : List Char) :
    charsOccur p s = true ↔ ∃ a b, s = a ++ p ++ b := by
  induction s with
  | nil =>
    rw [charsOccur, charsHavePre_iff]
    constructor
    · rintro ⟨r, hr⟩
      rcases List.append_eq_nil.mp hr.symm with ⟨hp, hrr⟩
      exact ⟨[], [], by simp [hp]⟩
    · rintro ⟨a, b, hab⟩
      rcases List.append_eq_nil.mp hab.symm with ⟨hab2, hb⟩
      rcases List.append_eq_nil.mp hab2 with ⟨ha, hp⟩
      exact ⟨[], by simp [hp]⟩
  | cons c cs ih =>
    rw [charsOccur, Bool.or_eq_true, charsHavePre_iff, ih]
    constructor
    · rintro (⟨r, hr⟩ | ⟨a, b, hab⟩)
      · exact ⟨[], r, by simpa using hr⟩
      · exact ⟨c :: a, b, by simp [hab]⟩
    · rintro ⟨a, b, hab⟩
      cases a with
      | nil => exact Or.inl ⟨b, by simpa using hab⟩
      | cons a0 as =>
        rw [List.cons_append, List.cons_append, List.cons.injEq] at hab
        exact Or.inr ⟨as, b, hab.2⟩

theorem scenario_prepend_ne (s : String) : "Scenario: " ++ s ≠ s := by
  intro h
  have hlen : ("Scenario: " ++ s).length = s.length := congrArg String.length h
  rw [String.length_append] at hlen
  have h10 : ("Scenario: " : String).length = 10 := rfl
  rw [h10] at hlen
  omega

theorem space_as_append (j v : String) :
    j ++ " " ++ ("AS " ++ v) = j ++ (" AS " ++ v) := by
  apply String.ext
  simp only [String.data_append]
  rw [List.append_assoc]
  congr 1

theorem pyStrip_append_space (s : String) : pyStrip (s ++ " ") = pyStrip s := by
  have hdata : (s ++ " ").data = s.data ++ [' '] := String.data_append ..
  simp only [pyStrip, hdata, List.reverse_append, List.reverse_cons, List.reverse_nil,
    List.nil_append, List.singleton_append, List.dropWhile_cons]
  norm_num [isPySpace]

theorem build_keywords_length (l : List KeywordNode) :
    (build_keywords l).length = (l.map lineCount).sum := by
  induction l with
  | nil => rfl
  | cons kw rest ih =>
    cases kw with
    | kwCall st k =>
      cases st <;> simp [build_keywords, lineCount, ih] <;> omega
    | forLoop vs f vals => simp [build_keywords, lineCount, ih]; omega
    | whileLoop c => simp [build_keywords, lineCount, ih]; omega
    | ifRoot bs => simp [build_keywords, build_if, lineCount, ih]
    | tryRoot bs => simp [build_keywords, build_try, lineCount, ih]

theorem emit_test_eq_none (r : TestRecord) : emit_test r = none := rfl

theorem emit_tests_eq (l : List TestRecord) :
    emit_tests l = if l.isEmpty then ("", false) else ("", true) := by
  cases l <;> simp [emit_tests, emit_test_eq_none]

theorem write_tests_eq (pr : String → Option String) (n : String)
    (tests : List TestNode) :
    write_tests pr n tests =
      if tests.isEmpty then ⟨none, false, tests⟩
      else
        ⟨some (replaceSpaces n ++ ".feature", "Feature: " ++ n ++ "\n\n\n"),
          true, (tests.map (build_test pr)).map Prod.snd⟩ := by
  cases tests with
  | nil => rfl
  | cons t ts =>
    simp [write_tests, emit_tests_eq, String.append_empty]

mutual

theorem run_suite_scrub (pr : String → Option String) (s : SuiteNode) :
    (run_suite pr (scrubSuite s)).files = (run_suite pr s).files ∧
    (run_suite pr (scrubSuite s)).crashed = (run_suite pr s).crashed := by
  cases s with
  | mk src i n ln d tc suites tests st td =>
    have hc := run_suites_scrub pr suites
    have hempty : (tests.map scrubTest).isEmpty = tests.isEmpty := by
      cases tests <;> rfl
    rw [scrubSuite]
    rw [run_suite, run_suite, hc.1, hc.2]
    cases hcr : (run_suites pr suites).crashed with
    | true => exact ⟨rfl, rfl⟩
    | false =>
      simp only [Bool.false_eq_true, if_false, write_tests_eq, hempty]
      cases htests : tests.isEmpty <;> simp

theorem run_suites_scrub (pr : String → Option String) (l : List SuiteNode) :
    (run_suites pr (scrubSuites l)).files = (run_suites pr l).files ∧
    (run_suites pr (scrubSuites l)).crashed = (run_suites pr l).crashed := by
  cases l with
  | nil => exact ⟨rfl, rfl⟩
  | cons s ss =>
    have hs := run_suite_scrub pr s
    have hss := run_suites_scrub pr ss
    rw [scrubSuites, run_suites, run_suites, hs.1, hs.2]
    cases hcr : (run_suite pr s).crashed with
    | true => exact ⟨rfl, rfl⟩
    | false => simp [hss.1, hss.2]

end

/-! ### The claims -/

/-- C4: for every test node, the length of the keywords sequence of the
produced TestRecord equals the length of the body plus one if a setup is
present plus one if a teardown is present, counting a FOR or WHILE node as
exactly one line record and an IF or TRY root as one record per branch. -/
theorem c4_keywords_length (pr : String → Option String) (t : TestNode) :
    ((build_test pr t).1).keywords.length =
      (t.body.map lineCount).sum
        + (if t.setup.isSome then 1 else 0)
        + (if t.teardown.isSome then 1 else 0) := by
  obtain ⟨n, ln, i, d, tags, tmo, body, st, td⟩ := t
  cases st <;> cases td <;>
    simp [build_test, build_keywords_length, lineCount, List.map_append] <;> omega

/-- C5: the timeout formatter is total at its boundary: absent input gives
the empty string (and so does the empty string, whose parse fails); input
the external duration parser accepts gives the re-rendered duration; input
it rejects passes through unchanged.  Totality of the Lean function states
that no exception crosses the boundary, the source catching the ValueError
the parser raises. -/
theorem c5_timeout_total (pr : String → Option String) :
    (get_timeout pr none = "") ∧
    (pr "" = none → get_timeout pr (some "") = "") ∧
    (∀ t rendered, pr t = some rendered → get_timeout pr (some t) = rendered) ∧
    (∀ t, pr t = none → get_timeout pr (some t) = t) := by
  refine ⟨rfl, ?_, ?_, ?_⟩
  · intro h; simp [get_timeout, h]
  · intro t rendered h; simp [get_timeout, h]
  · intro t h; simp [get_timeout, h]

/-- Witness for C5: a formatter that rejects everything passes an invalid
duration string through unchanged. -/
theorem c5_timeout_total_witness :
    get_timeout exPr (some "not a duration") = "not a duration" :=
  (c5_timeout_total exPr).2.2.2 "not a duration" rfl

/-- C7: the relativeSource of the SuiteRecord is empty whenever the suite
source is empty or no output path is configured, and otherwise it is the
external relative-path computation applied to the source and the directory
containing the output path; no other value is ever produced. -/
theorem c7_relative_source (lp : String → String → String) (out : String)
    (s : SuiteNode) :
    ((s.source = "" ∨ out = "") → (build_suite lp out s).relativeSource = "") ∧
    (s.source ≠ "" → out ≠ "" →
      (build_suite lp out s).relativeSource = lp s.source (dirname out)) := by
  cases s with
  | mk src i n ln d tc ss ts st td =>
    constructor
    · rintro (h | h) <;>
        simp [build_suite, SuiteRecord.relativeSource, get_relative_source,
          SuiteNode.source] at * <;> simp [h]
    · intro h1 h2
      simp only [SuiteNode.source] at h1
      simp [build_suite, SuiteRecord.relativeSource, get_relative_source,
        SuiteNode.source, h1, h2]

/-- Witness for C7: a suite whose source is set, with a set output path,
gets the relative path of the source against the directory of the output
path. -/
theorem c7_relative_source_witness :
    (build_suite exLp "/tmp/out/f.txt" exSrcSuite).relativeSource =
      "/data/s.robot|/tmp/out" := by
  have h := (c7_relative_source exLp "/tmp/out/f.txt" exSrcSuite).2
    (by decide) (by decide)
  rw [h]; rfl

/-- C8: the display name equals the name with the Scenario prefix if and
only if the lowercased name does not contain the substring scenario, and a
name containing it is used unchanged. -/
theorem c8_scenario_name_policy (pr : String → Option String) (t : TestNode) :
    ((build_test pr t).1.name = "Scenario: " ++ t.name ↔
        ¬ ∃ a b, (pyLower t.name).data = a ++ "scenario".data ++ b) ∧
    ((∃ a b, (pyLower t.name).data = a ++ "scenario".data ++ b) →
      (build_test pr t).1.name = t.name) := by
  have hocc : strContains (pyLower t.name) "scenario" = true ↔
      ∃ a b, (pyLower t.name).data = a ++ "scenario".data ++ b := by
    rw [strContains, charsOccur_iff]
  have hname : (build_test pr t).1.name =
      if strContains (pyLower t.name) "scenario" then t.name
      else "Scenario: " ++ t.name := rfl
  cases h : strContains (pyLower t.name) "scenario" with
  | false =>
    rw [h] at hname
    simp only [Bool.false_eq_true, if_false] at hname
    rw [h] at hocc
    have hnex : ¬ ∃ a b, (pyLower t.name).data = a ++ "scenario".data ++ b :=
      fun hex => by simpa using hocc.mpr hex
    exact ⟨iff_of_true hname hnex, fun hex => absurd hex hnex⟩
  | true =>
    rw [h] at hname
    simp only [if_true] at hname
    rw [h] at hocc
    have hex : ∃ a b, (pyLower t.name).data = a ++ "scenario".data ++ b :=
      hocc.mp rfl
    refine ⟨?_, fun _ => hname⟩
    rw [hname]
    exact iff_of_false (fun heq => scenario_prepend_ne t.name heq.symm)
      (fun hne => hne hex)

/-- Witness for C8: a test whose name contains SCENARIO in the middle keeps
its name unchanged. -/
theorem c8_scenario_name_policy_witness :
    (build_test exPr exScenTest).1.name = "My SCENARIO test" :=
  (c8_scenario_name_policy exPr exScenTest).2
    ⟨"my ".data, " test".data, by decide⟩

/-- C9: the TRY normalizer yields one record per branch in order, each with
the branch type tag and empty arguments; an EXCEPT branch gets the patterns
joined with a comma and a space, followed by the AS clause when a variable
is set, stripped of surrounding whitespace, and every other branch gets an
empty name. -/
theorem c9_try_branch_records (branches : List TryBranch) :
    build_try branches = branches.map fun b =>
      if b.type == "EXCEPT" then
        { type := b.type,
          name := pyStrip (String.intercalate ", " b.patterns ++
            (if pyTruthyS b.varName then " AS " ++ b.varName.getD "" else "")),
          arguments := "" }
      else { type := b.type, name := "", arguments := "" } := by
  rw [build_try]
  apply List.map_congr_left
  intro b _
  cases hb : (b.type == "EXCEPT") with
  | false => simp [hb]
  | true =>
    simp only [hb, if_true]
    cases hv : pyTruthyS b.varName with
    | false =>
      simp only [Bool.false_eq_true, if_false, String.append_empty,
        LineRecord.mk.injEq, true_and, and_true]
      exact pyStrip_append_space _
    | true =>
      simp only [if_true, LineRecord.mk.injEq, true_and, and_true]
      exact congrArg pyStrip (space_as_append _ _)

/-- C10: the bytes written to the feature files do not depend on the
timeout, doc, id and longname fields of the tests: two suite trees that
agree after those fields are scrubbed produce identical file contents.
Those fields are computed into the TestRecord, but the write loop renders
only the tags, the display name and the keyword lines. -/
theorem c10_untracked_test_fields (pr : String → Option String)
    (s1 s2 : SuiteNode) (h : scrubSuite s1 = scrubSuite s2) :
    (run_suite pr s1).files = (run_suite pr s2).files := by
  have h1 := (run_suite_scrub pr s1).1
  have h2 := (run_suite_scrub pr s2).1
  rw [← h1, ← h2, h]

/-- Witness for C10: two concrete one-test suites differing only in the
timeout, doc, id and longname of their test produce the same file
contents. -/
theorem c10_untracked_test_fields_witness :
    (run_suite exPr exFieldSuite1).files = (run_suite exPr exFieldSuite2).files :=
  c10_untracked_test_fields exPr exFieldSuite1 exFieldSuite2 rfl

/-- C1 (code bug): converting a suite owning a test with a setup is not
repeatable.  The first run raises a TypeError at the tag line after writing
only the Feature header, and it leaves the setup inserted in the shared
test body, so the records a second run builds over the tree left behind
have a longer keyword list (three records instead of two, the setup now
duplicated); the bytes of the two aborted runs agree only because both
stop before writing anything test-specific. -/
theorem c1_second_run_not_identical :
    (run_suite exPr exSuite).crashed = true ∧
    (run_suite exPr exSuite).files = [("S.feature", "Feature: S\n\n\n")] ∧
    (run_suite exPr (run_suite exPr exSuite).suite).files =
      (run_suite exPr exSuite).files ∧
    (exSuite.tests.map fun t => (build_test exPr t).1.keywords.length) = [2] ∧
    ((run_suite exPr exSuite).suite.tests.map fun t =>
      (build_test exPr t).1.keywords.length) = [3] := by
  refine ⟨rfl, by decide, by decide, by decide, by decide⟩

/-- C2 (code bug): building a test record mutates the shared test node: the
body of the node after _build_test has the setup inserted at position zero
and is not the original body. -/
theorem c2_build_test_mutates_body :
    (build_test exPr exTest).2.body = [KeywordNode.kwCall .setup exSetup, exKw] ∧
    exTest.body = [exKw] ∧
    (build_test exPr exTest).2.body ≠ exTest.body := by
  decide

/-- C3 (code bug): the tag line is never written.  Adding the string letter
t to the tag list raises TypeError, so for the concrete scenario of the
specification the file holds only the Feature header and the run aborts;
no tag line, no name line and no keyword line is written. -/
theorem c3_tag_line_raises_type_error :
    emit_test (build_test exPr exLoginTest).1 = none ∧
    (run_suite exPr exLoginSuite).files =
      [("Login_Suite.feature", "Feature: Login Suite\n\n\n")] ∧
    (run_suite exPr exLoginSuite).crashed = true := by
  refine ⟨rfl, by decide, rfl⟩

/-- C6 (code bug): a file is not created for every suite owning direct
tests.  With two sibling suites that each own a test, the TypeError raised
while writing the first file aborts the run, so the second test-owning
suite never gets a file; the zero-test root correctly gets none. -/
theorem c6_abort_skips_later_suites :
    exSuiteA.tests ≠ [] ∧ exSuiteB.tests ≠ [] ∧
    (run_suite exPr exRoot).files = [("Alpha.feature", "Feature: Alpha\n\n\n")] ∧
    (run_suite exPr exRoot).crashed = true := by
  refine ⟨by decide, by decide, by decide, rfl⟩

end BddConverter
